import Mathlib

/-!
Verification development for the MTA GTFS-Realtime collector
(`src/mta_data_collector.py`).

The Python program polls GTFS-RT protobuf feeds, decodes them with the
`gtfs_realtime_pb2` bindings, normalizes trip updates, vehicle positions and
service alerts into rows, and inserts them into PostgreSQL together with one
audit row (`realtime_feed_logs`) per poll attempt.

The shallow embedding below models:
* the decoded protobuf messages, with Python protobuf field semantics:
  reading an unset singular message field returns the field type's default
  instance, and a `google.protobuf` message object defines neither
  `__bool__` nor `__len__`, so in boolean context (`if entity.trip_update:`)
  a singular message field is ALWAYS truthy, whether or not the field is set
  (presence would require `HasField`); repeated fields are truthy iff
  non-empty, and scalars follow ordinary Python truthiness (non-zero /
  non-empty);
* the database as an explicit state (the committed contents of the five
  tables, the `feed_log_id` sequence, and a log of the INSERT statements that
  were executed), with batch inserts that can fail, modelling transient
  PostgreSQL errors through an oracle `ok : Kind → Bool`;
* the per-feed body of `main`'s loop and the catch-all `except` at the top of
  a cycle.  A raised exception is an `Except.error` carrying the committed
  state at the moment of failure (earlier `conn.commit()` calls are durable).
-/

/-! ## Decoded protobuf data model (the subset of GTFS-RT the program reads) -/

/-- GTFS-RT `TripDescriptor` as read by the program.  `schedule_relationship`
is an enum field; Python protobuf exposes enum values as plain `int`s, with
default `0`. -/
structure TripDescriptor where
  trip_id : String := ""
  route_id : String := ""
  start_date : String := ""
  schedule_relationship : Nat := 0
deriving DecidableEq, Repr

/-- GTFS-RT `TripUpdate.StopTimeEvent`: `delay` (int32) and `time` (int64),
both defaulting to `0` when unset. -/
structure StopTimeEvent where
  delay : Int := 0
  time : Int := 0
deriving DecidableEq, Repr

/-- GTFS-RT `TripUpdate.StopTimeUpdate`.  `arrival` and `departure` are
optional sub-messages; `none` models an unset field on the wire. -/
structure StopTimeUpdate where
  stop_sequence : Nat := 0
  stop_id : String := ""
  arrival : Option StopTimeEvent := none
  departure : Option StopTimeEvent := none
deriving DecidableEq, Repr

/-- GTFS-RT `TripUpdate`: a trip descriptor plus a repeated
`stop_time_update` field. -/
structure TripUpdate where
  trip : Option TripDescriptor := none
  stop_time_update : List StopTimeUpdate := []
deriving DecidableEq, Repr

/-- GTFS-RT `Position`.  The four coordinates are floats on the wire; the
program only copies them, so they are modelled as rationals, with the
protobuf default `0`. -/
structure Position where
  latitude : Rat := 0
  longitude : Rat := 0
  bearing : Rat := 0
  speed : Rat := 0
deriving DecidableEq, Repr

/-- GTFS-RT `VehicleDescriptor` (only `id` is read). -/
structure VehicleDescriptor where
  id : String := ""
deriving DecidableEq, Repr

/-- GTFS-RT `VehiclePosition` as read by the program.  `current_status` is an
enum (plain `int` in Python), `timestamp` a uint64. -/
structure VehiclePosition where
  trip : Option TripDescriptor := none
  vehicle : Option VehicleDescriptor := none
  position : Option Position := none
  current_status : Nat := 0
  stop_id : String := ""
  timestamp : Nat := 0
deriving DecidableEq, Repr

/-- One element of GTFS-RT `TranslatedString.translation`. -/
structure TranslationElem where
  text : String := ""
deriving DecidableEq, Repr

/-- GTFS-RT `TranslatedString`: a repeated `translation` field. -/
structure TranslatedString where
  translation : List TranslationElem := []
deriving DecidableEq, Repr

/-- GTFS-RT `Alert` as read by the program; `cause` and `effect` are enums
(plain `int`s in Python). -/
structure Alert where
  cause : Nat := 0
  effect : Nat := 0
  header_text : Option TranslatedString := none
  description_text : Option TranslatedString := none
deriving DecidableEq, Repr

/-- GTFS-RT `FeedEntity`: the three payload fields are optional sub-messages;
an entity may carry any subset of them. -/
structure FeedEntity where
  id : String := ""
  trip_update : Option TripUpdate := none
  vehicle : Option VehiclePosition := none
  alert : Option Alert := none
deriving DecidableEq, Repr

/-- GTFS-RT `FeedHeader` (only `timestamp`, a uint64, is read). -/
structure FeedHeader where
  timestamp : Nat := 0
deriving DecidableEq, Repr

/-- GTFS-RT `FeedMessage`: a header and a repeated `entity` field. -/
structure FeedMessage where
  header : FeedHeader := {}
  entity : List FeedEntity := []
deriving DecidableEq, Repr

/-! ### Python protobuf attribute access

Reading an unset singular message field in Python protobuf returns the field
type's default instance (all sub-fields at their defaults); it never returns
`None`.  The `...A` definitions below are those attribute reads. -/

/-- Python attribute read `tu.trip`. -/
def TripUpdate.tripA (tu : TripUpdate) : TripDescriptor := tu.trip.getD {}

/-- Python attribute read `stu.arrival`. -/
def StopTimeUpdate.arrivalA (stu : StopTimeUpdate) : StopTimeEvent := stu.arrival.getD {}

/-- Python attribute read `stu.departure`. -/
def StopTimeUpdate.departureA (stu : StopTimeUpdate) : StopTimeEvent := stu.departure.getD {}

/-- Python attribute read `v.trip`. -/
def VehiclePosition.tripA (v : VehiclePosition) : TripDescriptor := v.trip.getD {}

/-- Python attribute read `v.vehicle`. -/
def VehiclePosition.vehicleA (v : VehiclePosition) : VehicleDescriptor := v.vehicle.getD {}

/-- Python attribute read `v.position`. -/
def VehiclePosition.positionA (v : VehiclePosition) : Position := v.position.getD {}

/-- Python attribute read `a.header_text`. -/
def Alert.header_textA (a : Alert) : TranslatedString := a.header_text.getD {}

/-- Python attribute read `a.description_text`. -/
def Alert.description_textA (a : Alert) : TranslatedString := a.description_text.getD {}

/-- Python attribute read `entity.trip_update`. -/
def FeedEntity.trip_updateA (e : FeedEntity) : TripUpdate := e.trip_update.getD {}

/-- Python attribute read `entity.vehicle`. -/
def FeedEntity.vehicleA (e : FeedEntity) : VehiclePosition := e.vehicle.getD {}

/-- Python attribute read `entity.alert`. -/
def FeedEntity.alertA (e : FeedEntity) : Alert := e.alert.getD {}

/-! ### Python truthiness of protobuf message objects

A `google.protobuf` message object defines neither `__bool__` nor `__len__`,
so `bool(msg)` is `True` for every message instance — including the default
instance returned for an UNSET field.  Hence `if entity.trip_update:`,
`if v.position`, `if stu.arrival`, `if translated_string_msg` are all
constantly true.  (Presence testing would require `entity.HasField(...)`;
the program never calls `HasField`.) -/

/-- `bool()` of a `TripUpdate` message object: always `True`. -/
def TripUpdate.pyTruthy (_tu : TripUpdate) : Bool := true

/-- `bool()` of a `VehiclePosition` message object: always `True`. -/
def VehiclePosition.pyTruthy (_v : VehiclePosition) : Bool := true

/-- `bool()` of an `Alert` message object: always `True`. -/
def Alert.pyTruthy (_a : Alert) : Bool := true

/-- `bool()` of a `StopTimeEvent` message object: always `True`. -/
def StopTimeEvent.pyTruthy (_ev : StopTimeEvent) : Bool := true

/-- `bool()` of a `Position` message object: always `True`. -/
def Position.pyTruthy (_p : Position) : Bool := true

/-- `bool()` of a `TranslatedString` message object: always `True`. -/
def TranslatedString.pyTruthy (_ts : TranslatedString) : Bool := true

/-- Python `str()` applied to a protobuf enum field value (a plain `int`):
its decimal rendering. -/
def pyStr (n : Nat) : String := Nat.repr n

/-! ## `datetime.utcfromtimestamp` (proleptic-Gregorian UTC calendar) -/

/-- A naive Python `datetime` value as produced by
`datetime.utcfromtimestamp` on an integer timestamp (microsecond 0). -/
structure PyDatetime where
  year : Int
  month : Nat
  day : Nat
  hour : Nat
  minute : Nat
  second : Nat
deriving DecidableEq, Repr

/-- Civil (proleptic Gregorian) date from a count of days since 1970-01-01
(Howard Hinnant's `civil_from_days` algorithm): `(year, month, day)`. -/
def civilFromDays (z0 : Int) : Int × Nat × Nat :=
  let z : Int := z0 + 719468
  let era : Int := Int.fdiv z 146097
  let doe : Nat := (z - era * 146097).toNat
  let yoe : Nat := (doe - doe / 1460 + doe / 36524 - doe / 146096) / 365
  let y : Int := (yoe : Int) + era * 400
  let doy : Nat := doe - (365 * yoe + yoe / 4 - yoe / 100)
  let mp : Nat := (5 * doy + 2) / 153
  let d : Nat := doy - (153 * mp + 2) / 5 + 1
  let m : Nat := if mp < 10 then mp + 3 else mp - 9
  (if m ≤ 2 then y + 1 else y, m, d)

/-- `datetime.utcfromtimestamp` on an integer epoch-seconds value: the UTC
calendar date-time of that instant. -/
def utcfromtimestamp (ts : Int) : PyDatetime :=
  let days : Int := Int.fdiv ts 86400
  let secs : Nat := (Int.fmod ts 86400).toNat
  let ymd := civilFromDays days
  { year := ymd.1, month := ymd.2.1, day := ymd.2.2,
    hour := secs / 3600, minute := secs % 3600 / 60, second := secs % 60 }

/-- Source `_ts_to_datetime(ts)`:
`datetime.utcfromtimestamp(ts) if ts else None` — the zero timestamp (and
only it) maps to `None`. -/
def _ts_to_datetime (ts : Int) : Option PyDatetime :=
  if ts ≠ 0 then some (utcfromtimestamp ts) else none

/-- Source `_translate(translated_string_msg)`: returns
`translated_string_msg.translation[0].text` when
`translated_string_msg and translated_string_msg.translation` is truthy
(the message is always truthy; the repeated field is truthy iff non-empty),
else the empty string. -/
def _translate (translated_string_msg : TranslatedString) : String :=
  if translated_string_msg.pyTruthy && !translated_string_msg.translation.isEmpty then
    (translated_string_msg.translation.headD {}).text
  else ""


/-! ## Relational rows (the tuples the program builds for `execute_values`) -/

/-- One row of `realtime_trip_updates`:
`(feed_log_id, trip_id, route_id, start_date, schedule_relationship)`. -/
structure TripUpdateRow where
  feed_log_id : Nat
  trip_id : String
  route_id : String
  start_date : String
  schedule_relationship : String
deriving DecidableEq, Repr

/-- One row of `realtime_stop_time_updates`:
`(feed_log_id, trip_id, stop_id, stop_sequence, arrival_time, departure_time,
delay_seconds)`. -/
structure StopTimeUpdateRow where
  feed_log_id : Nat
  trip_id : String
  stop_id : String
  stop_sequence : Nat
  arrival_time : Option PyDatetime
  departure_time : Option PyDatetime
  delay_seconds : Option Int
deriving DecidableEq, Repr

/-- One row of `realtime_vehicle_positions`.  The four coordinate columns are
`Option` because the source computes `v.position.latitude if v.position else
None` (a float or `None`). -/
structure VehiclePositionRow where
  feed_log_id : Nat
  vehicle_id : String
  trip_id : String
  route_id : String
  current_stop_id : String
  current_status : String
  lat : Option Rat
  lon : Option Rat
  bearing : Option Rat
  speed : Option Rat
  position_timestamp : Option PyDatetime
deriving DecidableEq, Repr

/-- One row of `realtime_service_alerts`:
`(feed_log_id, header_text, description_text, cause, effect)`. -/
structure ServiceAlertRow where
  feed_log_id : Nat
  header_text : String
  description_text : String
  cause : String
  effect : String
deriving DecidableEq, Repr

/-- One row of `realtime_feed_logs`.  The `fetched_at` column is filled by SQL
`NOW()` (wall-clock time, outside the embedding) and is omitted. -/
structure FeedLogRow where
  feed_log_id : Nat
  feed_url : String
  feed_name : String
  feed_timestamp : Option PyDatetime
  success : Bool
  error_message : Option String
deriving DecidableEq, Repr

/-- The table an executed SQL INSERT targets. -/
inductive Kind where
  | tripUpdates
  | stopTimeUpdates
  | vehiclePositions
  | serviceAlerts
  | feedLogs
deriving DecidableEq, Repr

/-- A record of one executed (and committed) INSERT statement: its target
table and how many rows it carried. -/
structure SqlOp where
  table : Kind
  rowCount : Nat
deriving DecidableEq, Repr

/-- The committed database state, plus `ops`, the trace of INSERT statements
actually executed against it.  `next_log_id` models the `feed_log_id`
sequence behind `RETURNING feed_log_id`. -/
structure DB where
  feed_logs : List FeedLogRow := []
  trip_updates : List TripUpdateRow := []
  stop_time_updates : List StopTimeUpdateRow := []
  vehicle_positions : List VehiclePositionRow := []
  service_alerts : List ServiceAlertRow := []
  next_log_id : Nat := 1
  ops : List SqlOp := []
deriving DecidableEq, Repr

/-! ## Fetch & decode (`fetch_gtfs_rt_feed`) -/

/-- Outcome of the network request plus `ParseFromString` for one feed:
either both succeed, or the transport step raises (timeout, non-2xx, DNS
error...), or the protobuf decode raises on a malformed payload. -/
inductive FetchResult where
  | success (m : FeedMessage)
  | transportFailure (e : String)
  | decodeFailure (e : String)
deriving DecidableEq, Repr

/-- Source `fetch_gtfs_rt_feed`: one `try` block wraps both the HTTP request
and `ParseFromString`, and its single `except Exception` clause logs and
returns `None` — so a transport failure and a decode failure both come back
as `None`, indistinguishable to the caller. -/
def fetch_gtfs_rt_feed : FetchResult → Option FeedMessage
  | FetchResult.success m => some m
  | FetchResult.transportFailure _ => none
  | FetchResult.decodeFailure _ => none

/-! ## Row construction (the loop bodies of the three `process_*` functions) -/

/-- The tuple appended to `trip_updates_data` for one entity passing
`if entity.trip_update:` (with `tu = entity.trip_update`). -/
def tripUpdateRowOf (feed_log_id : Nat) (tu : TripUpdate) : TripUpdateRow :=
  { feed_log_id := feed_log_id
    trip_id := tu.tripA.trip_id
    route_id := tu.tripA.route_id
    start_date := tu.tripA.start_date
    schedule_relationship := pyStr tu.tripA.schedule_relationship }

/-- The tuple appended to `stop_time_updates_data` for one element `stu` of
`tu.stop_time_update` (with `trip_id = tu.trip.trip_id` from the enclosing
entity):
`arrival_time = _ts_to_datetime(stu.arrival.time) if (stu.arrival and
stu.arrival.time) else None`, likewise for `departure`, and
`delay = stu.arrival.delay if (stu.arrival and stu.arrival.delay) else
None`. -/
def stopTimeRowOf (feed_log_id : Nat) (trip_id : String) (stu : StopTimeUpdate) : StopTimeUpdateRow :=
  { feed_log_id := feed_log_id
    trip_id := trip_id
    stop_id := stu.stop_id
    stop_sequence := stu.stop_sequence
    arrival_time :=
      if stu.arrivalA.pyTruthy && stu.arrivalA.time ≠ 0 then
        _ts_to_datetime stu.arrivalA.time
      else none
    departure_time :=
      if stu.departureA.pyTruthy && stu.departureA.time ≠ 0 then
        _ts_to_datetime stu.departureA.time
      else none
    delay_seconds :=
      if stu.arrivalA.pyTruthy && stu.arrivalA.delay ≠ 0 then
        some stu.arrivalA.delay
      else none }

/-- The tuple appended to `vehicle_positions_data` for one entity passing
`if entity.vehicle:` (with `v = entity.vehicle`). -/
def vehiclePositionRowOf (feed_log_id : Nat) (v : VehiclePosition) : VehiclePositionRow :=
  { feed_log_id := feed_log_id
    vehicle_id := v.vehicleA.id
    trip_id := v.tripA.trip_id
    route_id := v.tripA.route_id
    current_stop_id := v.stop_id
    current_status := pyStr v.current_status
    lat := if v.positionA.pyTruthy then some v.positionA.latitude else none
    lon := if v.positionA.pyTruthy then some v.positionA.longitude else none
    bearing := if v.positionA.pyTruthy then some v.positionA.bearing else none
    speed := if v.positionA.pyTruthy then some v.positionA.speed else none
    position_timestamp :=
      if v.timestamp ≠ 0 then _ts_to_datetime (v.timestamp : Int) else none }

/-- The tuple appended to `alerts_data` for one entity passing
`if entity.alert:` (with `a = entity.alert`). -/
def serviceAlertRowOf (feed_log_id : Nat) (a : Alert) : ServiceAlertRow :=
  { feed_log_id := feed_log_id
    header_text := _translate a.header_textA
    description_text := _translate a.description_textA
    cause := pyStr a.cause
    effect := pyStr a.effect }

/-- The `trip_updates_data` list accumulated by the entity loop of
`process_trip_updates`: one tuple per entity whose `entity.trip_update`
attribute is truthy. -/
def trip_updates_data (feed_log_id : Nat) (m : FeedMessage) : List TripUpdateRow :=
  (m.entity.filter (fun e => e.trip_updateA.pyTruthy)).map
    (fun e => tripUpdateRowOf feed_log_id e.trip_updateA)

/-- The `stop_time_updates_data` list accumulated by the same loop: for each
entity whose `entity.trip_update` is truthy, one tuple per element of
`tu.stop_time_update`. -/
def stop_time_updates_data (feed_log_id : Nat) (m : FeedMessage) : List StopTimeUpdateRow :=
  (m.entity.filter (fun e => e.trip_updateA.pyTruthy)).flatMap
    (fun e => e.trip_updateA.stop_time_update.map
      (stopTimeRowOf feed_log_id e.trip_updateA.tripA.trip_id))

/-- The `vehicle_positions_data` list of `process_vehicle_positions`. -/
def vehicle_positions_data (feed_log_id : Nat) (m : FeedMessage) : List VehiclePositionRow :=
  (m.entity.filter (fun e => e.vehicleA.pyTruthy)).map
    (fun e => vehiclePositionRowOf feed_log_id e.vehicleA)

/-- The `alerts_data` list of `process_service_alerts`. -/
def alerts_data (feed_log_id : Nat) (m : FeedMessage) : List ServiceAlertRow :=
  (m.entity.filter (fun e => e.alertA.pyTruthy)).map
    (fun e => serviceAlertRowOf feed_log_id e.alertA)

/-! ## Batch inserts and the three `process_*` functions

Each `execute_values` + `conn.commit()` pair is one batch insert that either
commits (appending its rows and recording the statement in `ops`) or raises a
database error.  The oracle `ok : Kind → Bool` says which tables currently
accept writes, modelling transient PostgreSQL failures.  A raised error is
`Except.error (message, db)` where `db` is the committed state at the moment
of the raise (earlier commits are durable; the failed statement changes
nothing). -/

/-- `execute_values` + `commit` into `realtime_trip_updates`. -/
def insertTripUpdates (ok : Kind → Bool) (rows : List TripUpdateRow) (db : DB) :
    Except (String × DB) DB :=
  if ok Kind.tripUpdates then
    Except.ok { db with trip_updates := db.trip_updates ++ rows
                        ops := db.ops ++ [⟨Kind.tripUpdates, rows.length⟩] }
  else Except.error ("INSERT INTO realtime_trip_updates failed", db)

/-- `execute_values` + `commit` into `realtime_stop_time_updates`. -/
def insertStopTimeUpdates (ok : Kind → Bool) (rows : List StopTimeUpdateRow) (db : DB) :
    Except (String × DB) DB :=
  if ok Kind.stopTimeUpdates then
    Except.ok { db with stop_time_updates := db.stop_time_updates ++ rows
                        ops := db.ops ++ [⟨Kind.stopTimeUpdates, rows.length⟩] }
  else Except.error ("INSERT INTO realtime_stop_time_updates failed", db)

/-- `execute_values` + `commit` into `realtime_vehicle_positions`. -/
def insertVehiclePositions (ok : Kind → Bool) (rows : List VehiclePositionRow) (db : DB) :
    Except (String × DB) DB :=
  if ok Kind.vehiclePositions then
    Except.ok { db with vehicle_positions := db.vehicle_positions ++ rows
                        ops := db.ops ++ [⟨Kind.vehiclePositions, rows.length⟩] }
  else Except.error ("INSERT INTO realtime_vehicle_positions failed", db)

/-- `execute_values` + `commit` into `realtime_service_alerts`. -/
def insertServiceAlerts (ok : Kind → Bool) (rows : List ServiceAlertRow) (db : DB) :
    Except (String × DB) DB :=
  if ok Kind.serviceAlerts then
    Except.ok { db with service_alerts := db.service_alerts ++ rows
                        ops := db.ops ++ [⟨Kind.serviceAlerts, rows.length⟩] }
  else Except.error ("INSERT INTO realtime_service_alerts failed", db)

/-- Source `process_trip_updates(conn, feed_log_id, feed_message)`: builds the
two data lists, then `if trip_updates_data:` insert+commit, then
`if stop_time_updates_data:` insert+commit.  An empty list issues no
statement; a raised insert error propagates to the caller. -/
def process_trip_updates (ok : Kind → Bool) (feed_log_id : Nat) (m : FeedMessage)
    (db : DB) : Except (String × DB) DB :=
  let tud := trip_updates_data feed_log_id m
  let stud := stop_time_updates_data feed_log_id m
  match (if tud.isEmpty then Except.ok db else insertTripUpdates ok tud db) with
  | Except.error e => Except.error e
  | Except.ok db1 =>
    if stud.isEmpty then Except.ok db1 else insertStopTimeUpdates ok stud db1

/-- Source `process_vehicle_positions(conn, feed_log_id, feed_message)`. -/
def process_vehicle_positions (ok : Kind → Bool) (feed_log_id : Nat) (m : FeedMessage)
    (db : DB) : Except (String × DB) DB :=
  let vpd := vehicle_positions_data feed_log_id m
  if vpd.isEmpty then Except.ok db else insertVehiclePositions ok vpd db

/-- Source `process_service_alerts(conn, feed_log_id, feed_message)`. -/
def process_service_alerts (ok : Kind → Bool) (feed_log_id : Nat) (m : FeedMessage)
    (db : DB) : Except (String × DB) DB :=
  let ad := alerts_data feed_log_id m
  if ad.isEmpty then Except.ok db else insertServiceAlerts ok ad db

/-! ## Audit logging and the per-feed body of `main` -/

/-- Source `log_feed_fetch(conn, feed_name, feed_url, feed_timestamp,
success, error_message)`: a single synchronous INSERT into
`realtime_feed_logs` with `RETURNING feed_log_id`, committed before
returning.  (The claims under verification exercise failures of the four
entity-kind batches; this audit insert is modelled as accepted.) -/
def log_feed_fetch (db : DB) (feed_name feed_url : String)
    (feed_timestamp : Option PyDatetime) (success : Bool)
    (error_message : Option String) : Nat × DB :=
  let feed_log_id := db.next_log_id
  (feed_log_id,
   { db with
       feed_logs := db.feed_logs ++
         [{ feed_log_id := feed_log_id, feed_url := feed_url,
            feed_name := feed_name, feed_timestamp := feed_timestamp,
            success := success, error_message := error_message }]
       next_log_id := feed_log_id + 1
       ops := db.ops ++ [⟨Kind.feedLogs, 1⟩] })

/-- The body of `main`'s `for feed_name, feed_url in GTFS_RT_FEEDS.items():`
loop for one feed.  `if not feed_message:` logs a failed attempt (header
timestamp `None`, error message the fixed string) and `continue`s; otherwise
it logs a successful attempt, computes
`has_* = any(e.<field> for e in feed_message.entity)` and runs whichever
`process_*` functions those flags enable, in order.  A database error raised
by a `process_*` call propagates out of the loop. -/
def pollFeed (ok : Kind → Bool) (db : DB) (feed_name feed_url : String)
    (fr : FetchResult) : Except (String × DB) DB :=
  match fetch_gtfs_rt_feed fr with
  | none =>
    let logged := log_feed_fetch db feed_name feed_url none false
      (some "Failed to fetch or parse protobuf")
    Except.ok logged.2
  | some feed_message =>
    let feed_timestamp :=
      if feed_message.header.timestamp ≠ 0 then
        _ts_to_datetime (feed_message.header.timestamp : Int)
      else none
    let logged := log_feed_fetch db feed_name feed_url feed_timestamp true none
    let feed_log_id := logged.1
    let db1 := logged.2
    let has_trip_updates := feed_message.entity.any (fun e => e.trip_updateA.pyTruthy)
    let has_vehicle_positions := feed_message.entity.any (fun e => e.vehicleA.pyTruthy)
    let has_alerts := feed_message.entity.any (fun e => e.alertA.pyTruthy)
    match (if has_trip_updates then process_trip_updates ok feed_log_id feed_message db1
           else Except.ok db1) with
    | Except.error e => Except.error e
    | Except.ok db2 =>
      match (if has_vehicle_positions then
               process_vehicle_positions ok feed_log_id feed_message db2
             else Except.ok db2) with
      | Except.error e => Except.error e
      | Except.ok db3 =>
        if has_alerts then process_service_alerts ok feed_log_id feed_message db3
        else Except.ok db3

/-- The whole `for` loop over the feed catalog: each feed is handled in turn;
an exception raised while handling one feed aborts the remainder of the
loop. -/
def pollCycle (ok : Kind → Bool) (db : DB)
    (feeds : List (String × String × FetchResult)) : Except (String × DB) DB :=
  match feeds with
  | [] => Except.ok db
  | (feed_name, feed_url, fr) :: rest =>
    match pollFeed ok db feed_name feed_url fr with
    | Except.error e => Except.error e
    | Except.ok db1 => pollCycle ok db1 rest

/-- One iteration of `main`'s `while True:` body: the feed loop runs inside
`try: ... except Exception as e: logging.error(...)`, so a raised exception
is caught at the top of the cycle and the committed state at the moment of
failure is what remains in the database. -/
def runCycle (ok : Kind → Bool) (db : DB)
    (feeds : List (String × String × FetchResult)) : DB :=
  match pollCycle ok db feeds with
  | Except.ok db1 => db1
  | Except.error e => e.2

/-! ## Concrete sample data used by the witnesses and counterexamples -/

/-- Oracle: every INSERT is accepted (a healthy database). -/
def okAll : Kind → Bool := fun _ => true

/-- Oracle: INSERTs into `realtime_trip_updates` raise (a transient database
error on that table); every other statement is accepted. -/
def okNoTrip : Kind → Bool := fun k => !(k == Kind.tripUpdates)

/-- An entity carrying only an alert payload (no trip-update, no vehicle
payload): header text "Delays", cause 1, effect 2. -/
def alertOnlyEntity : FeedEntity :=
  { id := "A1"
    alert := some
      { cause := 1
        effect := 2
        header_text := some { translation := [{ text := "Delays" }] } } }

/-- A decoded message holding exactly the one alert-only entity. -/
def alertOnlyMessage : FeedMessage :=
  { header := { timestamp := 1700000000 }, entity := [alertOnlyEntity] }

/-- An entity carrying a vehicle payload whose `position` sub-message is
absent. -/
def vehicleNoPosEntity : FeedEntity :=
  { id := "E2"
    vehicle := some
      { trip := some { trip_id := "T1", route_id := "R1" }
        vehicle := some { id := "V1" }
        current_status := 1
        stop_id := "S1"
        timestamp := 1700000000 } }

/-- A decoded message holding exactly the one position-less vehicle
entity. -/
def vehicleNoPosMessage : FeedMessage :=
  { header := { timestamp := 1700000000 }, entity := [vehicleNoPosEntity] }

/-- An entity carrying both a trip-update payload (one stop-time update with
arrival epoch 1704100000 and delay 30) and a vehicle payload (with a
position). -/
def tripAndVehicleEntity : FeedEntity :=
  { id := "E3"
    trip_update := some
      { trip := some { trip_id := "T1", route_id := "R1", start_date := "20240101" }
        stop_time_update :=
          [{ stop_sequence := 1
             stop_id := "S1"
             arrival := some { delay := 30, time := 1704100000 } }] }
    vehicle := some
      { trip := some { trip_id := "T1", route_id := "R1" }
        vehicle := some { id := "V1" }
        position := some { latitude := 407/10, longitude := -74, bearing := 90, speed := 5 }
        current_status := 2
        stop_id := "S1"
        timestamp := 1704100000 } }

/-- A decoded message holding exactly the one trip-and-vehicle entity. -/
def tvMessage : FeedMessage :=
  { header := { timestamp := 1704100000 }, entity := [tripAndVehicleEntity] }

/-- An alert whose `header_text` container is present but holds an empty
translation list, and whose `description_text` container is absent. -/
def emptyHeaderAlert : Alert :=
  { cause := 3, effect := 4, header_text := some { translation := [] } }

/-- The committed state left behind when the `realtime_trip_updates` INSERT
for `tvMessage` raises: the successful audit row is already committed, no
entity row is. -/
def failedTvState : DB :=
  { feed_logs :=
      [{ feed_log_id := 1
         feed_url := "u"
         feed_name := "Subway-ACE"
         feed_timestamp := some { year := 2024, month := 1, day := 1, hour := 9, minute := 6, second := 40 }
         success := true
         error_message := none }]
    next_log_id := 2
    ops := [{ table := Kind.feedLogs, rowCount := 1 }] }

/-! ## Derived notions used in the statements -/

/-- The committed database state an `Except`-returning step leaves behind:
the new state on success, the state at the moment of the raise on failure. -/
def outcomeDB : Except (String × DB) DB → DB
  | Except.ok db => db
  | Except.error e => e.2

/-- `fk` is the `feed_log_id` of some audit row present in `db`. -/
def ReferencesSomeLog (db : DB) (fk : Nat) : Prop :=
  ∃ l ∈ db.feed_logs, l.feed_log_id = fk

/-- Referential sanity of the committed state: every audit row's id is below
the id sequence's next value, and every entity row of every kind references
an audit row that exists. -/
def RefIntegrity (db : DB) : Prop :=
  (∀ l ∈ db.feed_logs, l.feed_log_id < db.next_log_id) ∧
  (∀ r ∈ db.trip_updates, ReferencesSomeLog db r.feed_log_id) ∧
  (∀ r ∈ db.stop_time_updates, ReferencesSomeLog db r.feed_log_id) ∧
  (∀ r ∈ db.vehicle_positions, ReferencesSomeLog db r.feed_log_id) ∧
  (∀ r ∈ db.service_alerts, ReferencesSomeLog db r.feed_log_id)

/-- Relation between the state before and after a group of entity-batch
writes correlated to attempt `i`: the audit table and the id sequence are
untouched, and every entity row is either an old row or carries `i`. -/
def GoodStep (db db' : DB) (i : Nat) : Prop :=
  db'.feed_logs = db.feed_logs ∧
  db'.next_log_id = db.next_log_id ∧
  (∀ r ∈ db'.trip_updates, r ∈ db.trip_updates ∨ r.feed_log_id = i) ∧
  (∀ r ∈ db'.stop_time_updates, r ∈ db.stop_time_updates ∨ r.feed_log_id = i) ∧
  (∀ r ∈ db'.vehicle_positions, r ∈ db.vehicle_positions ∨ r.feed_log_id = i) ∧
  (∀ r ∈ db'.service_alerts, r ∈ db.service_alerts ∨ r.feed_log_id = i)

/-- The state after `main` logs a failed fetch/decode for one feed: as in
the `if not feed_message:` branch, the audit row carries a `None` header
timestamp and the fixed error message. -/
def failedFetchState (db : DB) (feed_name feed_url : String) : DB :=
  (log_feed_fetch db feed_name feed_url none false
    (some "Failed to fetch or parse protobuf")).2

/-- The audit row `main` commits before processing a successfully fetched and
decoded message. -/
def successLogRow (db : DB) (feed_name feed_url : String) (m : FeedMessage) : FeedLogRow :=
  { feed_log_id := db.next_log_id
    feed_url := feed_url
    feed_name := feed_name
    feed_timestamp :=
      if m.header.timestamp ≠ 0 then _ts_to_datetime (m.header.timestamp : Int) else none
    success := true
    error_message := none }

/-- The committed state right after `main` logs the successful attempt for a
decoded message, before any entity batch is written. -/
def postLogDB (db : DB) (feed_name feed_url : String) (m : FeedMessage) : DB :=
  (log_feed_fetch db feed_name feed_url
    (if m.header.timestamp ≠ 0 then _ts_to_datetime (m.header.timestamp : Int) else none)
    true none).2

/-! ## Helper lemmas (shared) -/

/-- Every tuple in `trip_updates_data` carries the attempt id it was built
with. -/
theorem mem_trip_updates_data_id {r : TripUpdateRow} {i : Nat} {m : FeedMessage}
    (h : r ∈ trip_updates_data i m) : r.feed_log_id = i := by
  simp only [trip_updates_data, List.mem_map] at h
  obtain ⟨e, _, rfl⟩ := h
  rfl

/-- Every tuple in `stop_time_updates_data` carries the attempt id it was
built with. -/
theorem mem_stop_time_updates_data_id {r : StopTimeUpdateRow} {i : Nat} {m : FeedMessage}
    (h : r ∈ stop_time_updates_data i m) : r.feed_log_id = i := by
  simp only [stop_time_updates_data, List.mem_flatMap, List.mem_map] at h
  obtain ⟨e, _, stu, _, rfl⟩ := h
  rfl

/-- Every tuple in `vehicle_positions_data` carries the attempt id it was
built with. -/
theorem mem_vehicle_positions_data_id {r : VehiclePositionRow} {i : Nat} {m : FeedMessage}
    (h : r ∈ vehicle_positions_data i m) : r.feed_log_id = i := by
  simp only [vehicle_positions_data, List.mem_map] at h
  obtain ⟨e, _, rfl⟩ := h
  rfl

/-- Every tuple in `alerts_data` carries the attempt id it was built with. -/
theorem mem_alerts_data_id {r : ServiceAlertRow} {i : Nat} {m : FeedMessage}
    (h : r ∈ alerts_data i m) : r.feed_log_id = i := by
  simp only [alerts_data, List.mem_map] at h
  obtain ⟨e, _, rfl⟩ := h
  rfl

/-- `GoodStep` is reflexive. -/
theorem goodStep_refl (db : DB) (i : Nat) : GoodStep db db i := by
  refine ⟨rfl, rfl, ?_, ?_, ?_, ?_⟩ <;> exact fun r hr => Or.inl hr

/-- `GoodStep` composes. -/
theorem goodStep_trans {a b c : DB} {i : Nat}
    (h1 : GoodStep a b i) (h2 : GoodStep b c i) : GoodStep a c i := by
  obtain ⟨e1, n1, t1, s1, v1, a1⟩ := h1
  obtain ⟨e2, n2, t2, s2, v2, a2⟩ := h2
  refine ⟨e2.trans e1, n2.trans n1, ?_, ?_, ?_, ?_⟩
  · intro r hr; rcases t2 r hr with h | h
    · exact t1 r h
    · exact Or.inr h
  · intro r hr; rcases s2 r hr with h | h
    · exact s1 r h
    · exact Or.inr h
  · intro r hr; rcases v2 r hr with h | h
    · exact v1 r h
    · exact Or.inr h
  · intro r hr; rcases a2 r hr with h | h
    · exact a1 r h
    · exact Or.inr h

/-- Either outcome of the `realtime_trip_updates` batch insert is a
`GoodStep` when all inserted tuples carry attempt id `i`. -/
theorem goodStep_insertTripUpdates {ok : Kind → Bool} {rows : List TripUpdateRow}
    {db : DB} {i : Nat} (h : ∀ r ∈ rows, r.feed_log_id = i) :
    GoodStep db (outcomeDB (insertTripUpdates ok rows db)) i := by
  unfold insertTripUpdates
  by_cases hok : ok Kind.tripUpdates
  · simp only [hok, if_true, outcomeDB]
    refine ⟨rfl, rfl, ?_, ?_, ?_, ?_⟩
    · intro r hr
      rcases List.mem_append.1 hr with hr | hr
      · exact Or.inl hr
      · exact Or.inr (h r hr)
    all_goals exact fun r hr => Or.inl hr
  · simp only [hok, if_false, outcomeDB]
    exact goodStep_refl db i

/-- Either outcome of the `realtime_stop_time_updates` batch insert is a
`GoodStep` when all inserted tuples carry attempt id `i`. -/
theorem goodStep_insertStopTimeUpdates {ok : Kind → Bool} {rows : List StopTimeUpdateRow}
    {db : DB} {i : Nat} (h : ∀ r ∈ rows, r.feed_log_id = i) :
    GoodStep db (outcomeDB (insertStopTimeUpdates ok rows db)) i := by
  unfold insertStopTimeUpdates
  by_cases hok : ok Kind.stopTimeUpdates
  · simp only [hok, if_true, outcomeDB]
    refine ⟨rfl, rfl, ?_, ?_, ?_, ?_⟩
    · exact fun r hr => Or.inl hr
    · intro r hr
      rcases List.mem_append.1 hr with hr | hr
      · exact Or.inl hr
      · exact Or.inr (h r hr)
    all_goals exact fun r hr => Or.inl hr
  · simp only [hok, if_false, outcomeDB]
    exact goodStep_refl db i

/-- Either outcome of the `realtime_vehicle_positions` batch insert is a
`GoodStep` when all inserted tuples carry attempt id `i`. -/
theorem goodStep_insertVehiclePositions {ok : Kind → Bool} {rows : List VehiclePositionRow}
    {db : DB} {i : Nat} (h : ∀ r ∈ rows, r.feed_log_id = i) :
    GoodStep db (outcomeDB (insertVehiclePositions ok rows db)) i := by
  unfold insertVehiclePositions
  by_cases hok : ok Kind.vehiclePositions
  · simp only [hok, if_true, outcomeDB]
    refine ⟨rfl, rfl, ?_, ?_, ?_, ?_⟩
    · exact fun r hr => Or.inl hr
    · exact fun r hr => Or.inl hr
    · intro r hr
      rcases List.mem_append.1 hr with hr | hr
      · exact Or.inl hr
      · exact Or.inr (h r hr)
    · exact fun r hr => Or.inl hr
  · simp only [hok, if_false, outcomeDB]
    exact goodStep_refl db i

/-- Either outcome of the `realtime_service_alerts` batch insert is a
`GoodStep` when all inserted tuples carry attempt id `i`. -/
theorem goodStep_insertServiceAlerts {ok : Kind → Bool} {rows : List ServiceAlertRow}
    {db : DB} {i : Nat} (h : ∀ r ∈ rows, r.feed_log_id = i) :
    GoodStep db (outcomeDB (insertServiceAlerts ok rows db)) i := by
  unfold insertServiceAlerts
  by_cases hok : ok Kind.serviceAlerts
  · simp only [hok, if_true, outcomeDB]
    refine ⟨rfl, rfl, ?_, ?_, ?_, ?_⟩
    · exact fun r hr => Or.inl hr
    · exact fun r hr => Or.inl hr
    · exact fun r hr => Or.inl hr
    · intro r hr
      rcases List.mem_append.1 hr with hr | hr
      · exact Or.inl hr
      · exact Or.inr (h r hr)
  · simp only [hok, if_false, outcomeDB]
    exact goodStep_refl db i

/-- Either outcome of `process_trip_updates` is a `GoodStep` for the attempt
id it was called with. -/
theorem goodStep_process_trip_updates (ok : Kind → Bool) (i : Nat) (m : FeedMessage)
    (db : DB) : GoodStep db (outcomeDB (process_trip_updates ok i m db)) i := by
  have htu : ∀ r ∈ trip_updates_data i m, r.feed_log_id = i :=
    fun r hr => mem_trip_updates_data_id hr
  have hstu : ∀ r ∈ stop_time_updates_data i m, r.feed_log_id = i :=
    fun r hr => mem_stop_time_updates_data_id hr
  simp only [process_trip_updates]
  cases hres : (if (trip_updates_data i m).isEmpty then Except.ok db
                else insertTripUpdates ok (trip_updates_data i m) db) with
  | error e =>
    dsimp only
    by_cases h1 : (trip_updates_data i m).isEmpty
    · rw [if_pos h1] at hres; exact absurd hres (by simp)
    · rw [if_neg h1] at hres
      have hg := @goodStep_insertTripUpdates ok (trip_updates_data i m) db i htu
      rw [hres] at hg
      exact hg
  | ok db1 =>
    dsimp only
    have hg1 : GoodStep db db1 i := by
      by_cases h1 : (trip_updates_data i m).isEmpty
      · rw [if_pos h1] at hres
        cases hres
        exact goodStep_refl db i
      · rw [if_neg h1] at hres
        have hg := @goodStep_insertTripUpdates ok (trip_updates_data i m) db i htu
        rw [hres] at hg
        exact hg
    by_cases h2 : (stop_time_updates_data i m).isEmpty
    · rw [if_pos h2]; exact hg1
    · rw [if_neg h2]
      exact goodStep_trans hg1 (@goodStep_insertStopTimeUpdates ok (stop_time_updates_data i m) db1 i hstu)

/-- Either outcome of `process_vehicle_positions` is a `GoodStep` for the
attempt id it was called with. -/
theorem goodStep_process_vehicle_positions (ok : Kind → Bool) (i : Nat) (m : FeedMessage)
    (db : DB) : GoodStep db (outcomeDB (process_vehicle_positions ok i m db)) i := by
  have hvp : ∀ r ∈ vehicle_positions_data i m, r.feed_log_id = i :=
    fun r hr => mem_vehicle_positions_data_id hr
  simp only [process_vehicle_positions]
  by_cases h1 : (vehicle_positions_data i m).isEmpty
  · rw [if_pos h1]; exact goodStep_refl db i
  · rw [if_neg h1]; exact goodStep_insertVehiclePositions hvp

/-- Either outcome of `process_service_alerts` is a `GoodStep` for the
attempt id it was called with. -/
theorem goodStep_process_service_alerts (ok : Kind → Bool) (i : Nat) (m : FeedMessage)
    (db : DB) : GoodStep db (outcomeDB (process_service_alerts ok i m db)) i := by
  have had : ∀ r ∈ alerts_data i m, r.feed_log_id = i :=
    fun r hr => mem_alerts_data_id hr
  simp only [process_service_alerts]
  by_cases h1 : (alerts_data i m).isEmpty
  · rw [if_pos h1]; exact goodStep_refl db i
  · rw [if_neg h1]; exact goodStep_insertServiceAlerts had

/-- Composing three fallible steps, each a `GoodStep` from any start state,
in the error-propagating shape used by `pollFeed`, is a `GoodStep`. -/
theorem goodStep_chain {db1 : DB} {i : Nat} (f g k : DB → Except (String × DB) DB)
    (hf : ∀ d, GoodStep d (outcomeDB (f d)) i)
    (hg : ∀ d, GoodStep d (outcomeDB (g d)) i)
    (hk : ∀ d, GoodStep d (outcomeDB (k d)) i) :
    GoodStep db1 (outcomeDB (
      match f db1 with
      | Except.error e => Except.error e
      | Except.ok d2 =>
        match g d2 with
        | Except.error e => Except.error e
        | Except.ok d3 => k d3)) i := by
  cases hf1 : f db1 with
  | error e =>
    have h1 := hf db1
    rw [hf1] at h1
    exact h1
  | ok d2 =>
    dsimp only
    have h12 : GoodStep db1 d2 i := by
      have h1 := hf db1
      rw [hf1] at h1
      exact h1
    cases hg1 : g d2 with
    | error e =>
      have h2 := hg d2
      rw [hg1] at h2
      exact goodStep_trans h12 h2
    | ok d3 =>
      have h23 : GoodStep d2 d3 i := by
        have h2 := hg d2
        rw [hg1] at h2
        exact h2
      exact goodStep_trans (goodStep_trans h12 h23) (hk d3)

/-- After the successful audit row for a decoded message is committed, the
rest of `pollFeed` — whichever of the three `process_*` calls run, and
whether they commit or raise — is a `GoodStep` for the fresh attempt id. -/
theorem pollFeed_success_goodStep (ok : Kind → Bool) (db : DB) (n u : String)
    (m : FeedMessage) :
    GoodStep (postLogDB db n u m)
      (outcomeDB (pollFeed ok db n u (FetchResult.success m))) db.next_log_id := by
  have hf : ∀ d, GoodStep d (outcomeDB
      (if m.entity.any (fun e => e.trip_updateA.pyTruthy) then
        process_trip_updates ok db.next_log_id m d else Except.ok d)) db.next_log_id := by
    intro d
    by_cases hb : m.entity.any (fun e => e.trip_updateA.pyTruthy)
    · rw [if_pos hb]; exact goodStep_process_trip_updates ok db.next_log_id m d
    · rw [if_neg hb]; exact goodStep_refl d db.next_log_id
  have hg : ∀ d, GoodStep d (outcomeDB
      (if m.entity.any (fun e => e.vehicleA.pyTruthy) then
        process_vehicle_positions ok db.next_log_id m d else Except.ok d)) db.next_log_id := by
    intro d
    by_cases hb : m.entity.any (fun e => e.vehicleA.pyTruthy)
    · rw [if_pos hb]; exact goodStep_process_vehicle_positions ok db.next_log_id m d
    · rw [if_neg hb]; exact goodStep_refl d db.next_log_id
  have hk : ∀ d, GoodStep d (outcomeDB
      (if m.entity.any (fun e => e.alertA.pyTruthy) then
        process_service_alerts ok db.next_log_id m d else Except.ok d)) db.next_log_id := by
    intro d
    by_cases hb : m.entity.any (fun e => e.alertA.pyTruthy)
    · rw [if_pos hb]; exact goodStep_process_service_alerts ok db.next_log_id m d
    · rw [if_neg hb]; exact goodStep_refl d db.next_log_id
  exact goodStep_chain
    (fun d => if m.entity.any (fun e => e.trip_updateA.pyTruthy) then
      process_trip_updates ok db.next_log_id m d else Except.ok d)
    (fun d => if m.entity.any (fun e => e.vehicleA.pyTruthy) then
      process_vehicle_positions ok db.next_log_id m d else Except.ok d)
    (fun d => if m.entity.any (fun e => e.alertA.pyTruthy) then
      process_service_alerts ok db.next_log_id m d else Except.ok d)
    hf hg hk

/-! ## Claims -/

/-- Claim C1 (code behavior at the failing input): the claim says an entity
carrying none of the three payloads contributes zero rows and each kind's
row count equals the number of entities carrying that kind's payload.  The
code disagrees: because a singular protobuf message field is always truthy,
`if entity.trip_update:` and `if entity.vehicle:` pass for an entity that
carries only an alert payload, so one alert-only entity is persisted as one
trip-update row, one vehicle row AND one alert row (plus the one successful
audit row). -/
theorem C1_code_rows_for_payload_free_kinds :
    alertOnlyEntity.trip_update = none ∧
    alertOnlyEntity.vehicle = none ∧
    (runCycle okAll {} [("All-Alerts", "u", FetchResult.success alertOnlyMessage)]).trip_updates.length = 1 ∧
    (runCycle okAll {} [("All-Alerts", "u", FetchResult.success alertOnlyMessage)]).vehicle_positions.length = 1 ∧
    (runCycle okAll {} [("All-Alerts", "u", FetchResult.success alertOnlyMessage)]).service_alerts.length = 1 ∧
    (runCycle okAll {} [("All-Alerts", "u", FetchResult.success alertOnlyMessage)]).feed_logs
      = [{ feed_log_id := 1, feed_url := "u", feed_name := "All-Alerts",
           feed_timestamp := some { year := 2023, month := 11, day := 14, hour := 22, minute := 13, second := 20 },
           success := true, error_message := none }] :=
  ⟨rfl, rfl, rfl, rfl, rfl, rfl⟩

/-- Claim C2 (code behavior at the failing input): the claim says the four
position columns are null when the vehicle entity has no `position`
sub-message.  The code disagrees: `v.position` is always truthy, so the
`else None` branch is dead and the protobuf default coordinates `0.0` are
persisted instead of null.  (The timestamp half of the claim does hold: a
non-zero epoch is converted to UTC, a zero one becomes null, as the last
conjunct shows on a default vehicle.) -/
theorem C2_code_position_defaults_not_null :
    vehicleNoPosEntity.vehicleA.position = none ∧
    vehicle_positions_data 1 vehicleNoPosMessage
      = [{ feed_log_id := 1, vehicle_id := "V1", trip_id := "T1", route_id := "R1",
           current_stop_id := "S1", current_status := "1",
           lat := some 0, lon := some 0, bearing := some 0, speed := some 0,
           position_timestamp := some { year := 2023, month := 11, day := 14, hour := 22, minute := 13, second := 20 } }] ∧
    (vehiclePositionRowOf 1 {}).position_timestamp = none :=
  ⟨rfl, rfl, rfl⟩

/-- Claim C3: for every stop-time-update element, the produced record has a
null `arrival_time` exactly when the arrival sub-message is absent or its
`time` field is zero, a null `departure_time` under the same rule for the
departure sub-message, and a null `delay_seconds` exactly when the arrival
sub-message is absent or the arrival `delay` is exactly 0 — so a genuine
zero-second delay is recorded as null. -/
theorem C3_stop_time_null_rules (i : Nat) (tid : String) (stu : StopTimeUpdate) :
    ((stopTimeRowOf i tid stu).arrival_time = none ↔
      (stu.arrival = none ∨ stu.arrivalA.time = 0)) ∧
    ((stopTimeRowOf i tid stu).departure_time = none ↔
      (stu.departure = none ∨ stu.departureA.time = 0)) ∧
    ((stopTimeRowOf i tid stu).delay_seconds = none ↔
      (stu.arrival = none ∨ stu.arrivalA.delay = 0)) := by
  refine ⟨?_, ?_, ?_⟩
  · rcases harr : stu.arrival with _ | a
    · simp [stopTimeRowOf, StopTimeUpdate.arrivalA, harr, StopTimeEvent.pyTruthy]
    · by_cases ht : a.time = 0 <;>
        simp [stopTimeRowOf, StopTimeUpdate.arrivalA, harr, ht,
          StopTimeEvent.pyTruthy, _ts_to_datetime]
  · rcases hdep : stu.departure with _ | d
    · simp [stopTimeRowOf, StopTimeUpdate.departureA, hdep, StopTimeEvent.pyTruthy]
    · by_cases ht : d.time = 0 <;>
        simp [stopTimeRowOf, StopTimeUpdate.departureA, hdep, ht,
          StopTimeEvent.pyTruthy, _ts_to_datetime]
  · rcases harr : stu.arrival with _ | a
    · simp [stopTimeRowOf, StopTimeUpdate.arrivalA, harr, StopTimeEvent.pyTruthy]
    · by_cases hd : a.delay = 0 <;>
        simp [stopTimeRowOf, StopTimeUpdate.arrivalA, harr, hd, StopTimeEvent.pyTruthy]

/-- Claim C5: every Alert entity yields exactly one service-alert row, whose
header text (and likewise description text) is the first translation's text
when the translated-text container is present and holds at least one
translation, and the empty string otherwise — the column is a `String`, so
it is never null. -/
theorem C5_alert_first_translation (i : Nat) (e : FeedEntity) (a : Alert)
    (h : e.alert = some a) :
    alerts_data i { entity := [e] } = [serviceAlertRowOf i a] ∧
    (serviceAlertRowOf i a).header_text =
      (match a.header_text with
        | none => ""
        | some ts =>
          match ts.translation with
          | [] => ""
          | t :: _ => t.text) ∧
    (serviceAlertRowOf i a).description_text =
      (match a.description_text with
        | none => ""
        | some ts =>
          match ts.translation with
          | [] => ""
          | t :: _ => t.text) := by
  refine ⟨?_, ?_, ?_⟩
  · simp [alerts_data, Alert.pyTruthy, FeedEntity.alertA, h]
  · rcases hh : a.header_text with _ | ts
    · simp [serviceAlertRowOf, Alert.header_textA, hh, _translate, TranslatedString.pyTruthy]
    · rcases hl : ts.translation with _ | ⟨t, rest⟩ <;>
        simp [serviceAlertRowOf, Alert.header_textA, hh, hl, _translate,
          TranslatedString.pyTruthy]
  · rcases hh : a.description_text with _ | ts
    · simp [serviceAlertRowOf, Alert.description_textA, hh, _translate,
        TranslatedString.pyTruthy]
    · rcases hl : ts.translation with _ | ⟨t, rest⟩ <;>
        simp [serviceAlertRowOf, Alert.description_textA, hh, hl, _translate,
          TranslatedString.pyTruthy]

/-- Witness for C5, at the claim's own hallmark input: an alert whose
`header_text` container is present with an empty translation list yields
`header_text = ""` (and exactly one row for the entity). -/
theorem C5_alert_first_translation_witness :
    alerts_data 7 { entity := [{ id := "W5", alert := some emptyHeaderAlert }] }
      = [serviceAlertRowOf 7 emptyHeaderAlert] ∧
    (serviceAlertRowOf 7 emptyHeaderAlert).header_text = "" := by
  have h := C5_alert_first_translation 7
    { id := "W5", alert := some emptyHeaderAlert } emptyHeaderAlert rfl
  exact ⟨h.1, h.2.1⟩

/-- Counterexample to claim C6: with a database that (transiently) rejects
INSERTs into `realtime_trip_updates` but accepts everything else, a feed
whose message holds both trip-update and vehicle data ends its cycle with
the committed state at the failure: no vehicle row and no INSERT against
`realtime_vehicle_positions` was ever attempted, even though the feed had
one vehicle row to write and that table accepted writes. -/
theorem C6_counterexample_vehicle_batch_not_attempted :
    (vehicle_positions_data 1 tvMessage).length = 1 ∧
    okNoTrip Kind.vehiclePositions = true ∧
    runCycle okNoTrip {} [("Subway-ACE", "u", FetchResult.success tvMessage)] = failedTvState ∧
    failedTvState.vehicle_positions = [] ∧
    failedTvState.ops = [{ table := Kind.feedLogs, rowCount := 1 }] :=
  ⟨rfl, rfl, rfl, rfl, rfl⟩

/-- Claim C6 as amended: when one entity kind's batch write raises, the
exception propagates to the cycle-level handler (where it is only logged);
the remaining kinds' batches for that feed and all remaining feeds of the
cycle are NOT attempted, and the committed state at the moment of the
failure — including batches committed before it — is what remains. -/
theorem C6_amended_persistence_failure_aborts_cycle (ok : Kind → Bool) (db : DB)
    (n u : String) (fr : FetchResult) (rest : List (String × String × FetchResult))
    (err : String) (dbf : DB) (h : pollFeed ok db n u fr = Except.error (err, dbf)) :
    runCycle ok db ((n, u, fr) :: rest) = dbf := by
  simp [runCycle, pollCycle, h]

/-- Witness for the amended C6: the failing trip-update batch of the first
feed ends the cycle at the failure state; the second feed of the cycle is
never polled. -/
theorem C6_amended_witness :
    runCycle okNoTrip {}
      [("Subway-ACE", "u", FetchResult.success tvMessage),
       ("Subway-L", "u2", FetchResult.success alertOnlyMessage)] = failedTvState :=
  C6_amended_persistence_failure_aborts_cycle okNoTrip {} "Subway-ACE" "u"
    (FetchResult.success tvMessage)
    [("Subway-L", "u2", FetchResult.success alertOnlyMessage)]
    "INSERT INTO realtime_trip_updates failed" failedTvState rfl

/-- Claim C8 (code behavior at the failing input): the claim says a message
with zero entities of a kind causes zero writes against that kind's table.
The code disagrees: for a message whose single entity carries only an alert
payload, `if entity.vehicle:` is still truthy, `vehicle_positions_data` is
non-empty, and an INSERT of one (default-valued) row is issued against
`realtime_vehicle_positions` (and `realtime_trip_updates`).  Only the
stop-time table, whose data list is genuinely empty, sees no statement. -/
theorem C8_insert_issued_for_absent_kind :
    alertOnlyEntity.vehicle = none ∧
    (vehicle_positions_data 1 alertOnlyMessage).length = 1 ∧
    (stop_time_updates_data 1 alertOnlyMessage).length = 0 ∧
    (runCycle okAll {} [("All-Alerts", "u", FetchResult.success alertOnlyMessage)]).ops
      = [{ table := Kind.feedLogs, rowCount := 1 },
         { table := Kind.tripUpdates, rowCount := 1 },
         { table := Kind.vehiclePositions, rowCount := 1 },
         { table := Kind.serviceAlerts, rowCount := 1 }] :=
  ⟨rfl, rfl, rfl, rfl⟩

/-- Counterexample to claim C9: a transport failure and a decode failure
leave byte-for-byte identical database states — the recorded error detail is
the same fixed string for both, so it does not distinguish a malformed
payload from a transport failure. -/
theorem C9_counterexample_same_error_detail :
    pollFeed okAll {} "LIRR" "u"
        (FetchResult.transportFailure "HTTPSConnectionPool: Read timed out")
      = pollFeed okAll {} "LIRR" "u"
        (FetchResult.decodeFailure "Error parsing message") ∧
    (outcomeDB (pollFeed okAll {} "LIRR" "u"
        (FetchResult.decodeFailure "Error parsing message"))).feed_logs
      = [{ feed_log_id := 1, feed_url := "u", feed_name := "LIRR",
           feed_timestamp := none, success := false,
           error_message := some "Failed to fetch or parse protobuf" }] :=
  ⟨rfl, rfl⟩

/-- Claim C9 as amended: a decode failure is handled exactly like a fetch
failure — one failed FetchAttempt row is recorded and the feed is skipped —
and the recorded error detail is the same fixed string,
"Failed to fetch or parse protobuf", for both failure kinds; it does not
distinguish a malformed payload from a transport failure. -/
theorem C9_amended_decode_equals_fetch (ok : Kind → Bool) (db : DB)
    (n u e1 e2 : String) :
    pollFeed ok db n u (FetchResult.decodeFailure e1)
      = pollFeed ok db n u (FetchResult.transportFailure e2) ∧
    pollFeed ok db n u (FetchResult.decodeFailure e1)
      = Except.ok (failedFetchState db n u) :=
  ⟨rfl, rfl⟩

/-- Claim C10: each enum-valued column — `schedule_relationship` of a trip
update, `current_status` of a vehicle position, `cause` and `effect` of an
alert — is stored as the decimal rendering of the enum's numeric wire value
(Python `str()` of the plain `int` the binding returns), not as a symbolic
name. -/
theorem C10_enum_columns_decimal (i : Nat) (m : FeedMessage) :
    (∀ r ∈ trip_updates_data i m, ∃ e ∈ m.entity,
       r.schedule_relationship = Nat.repr e.trip_updateA.tripA.schedule_relationship) ∧
    (∀ r ∈ vehicle_positions_data i m, ∃ e ∈ m.entity,
       r.current_status = Nat.repr e.vehicleA.current_status) ∧
    (∀ r ∈ alerts_data i m, ∃ e ∈ m.entity,
       r.cause = Nat.repr e.alertA.cause ∧ r.effect = Nat.repr e.alertA.effect) := by
  refine ⟨?_, ?_, ?_⟩
  · intro r hr
    simp only [trip_updates_data, List.mem_map, List.mem_filter] at hr
    obtain ⟨e, ⟨he, _⟩, rfl⟩ := hr
    exact ⟨e, he, rfl⟩
  · intro r hr
    simp only [vehicle_positions_data, List.mem_map, List.mem_filter] at hr
    obtain ⟨e, ⟨he, _⟩, rfl⟩ := hr
    exact ⟨e, he, rfl⟩
  · intro r hr
    simp only [alerts_data, List.mem_map, List.mem_filter] at hr
    obtain ⟨e, ⟨he, _⟩, rfl⟩ := hr
    exact ⟨e, he, rfl, rfl⟩

/-- Witness for C10 at a concrete row: the default schedule-relationship
enum of `tvMessage`'s trip update is stored as the decimal string of its
numeric value. -/
theorem C10_enum_columns_decimal_witness :
    ∃ e ∈ tvMessage.entity,
      (tripUpdateRowOf 1 tripAndVehicleEntity.trip_updateA).schedule_relationship
        = Nat.repr e.trip_updateA.tripA.schedule_relationship :=
  (C10_enum_columns_decimal 1 tvMessage).1
    (tripUpdateRowOf 1 tripAndVehicleEntity.trip_updateA) (List.Mem.head _)

/-- The empty database satisfies referential integrity. -/
theorem refIntegrity_empty : RefIntegrity {} := by
  refine ⟨?_, ?_, ?_, ?_, ?_⟩ <;> intro x hx <;> simp at hx

/-- Claim C4: for every feed whose fetch or decode fails in a poll cycle,
exactly one FetchAttempt row is recorded — `success=false`, null header
timestamp, the fixed error detail — the entity tables are untouched, no
entity row references the new attempt's id, and the poller proceeds to the
next feed of the catalog. -/
theorem C4_failed_fetch_one_audit_row (ok : Kind → Bool) (db : DB)
    (n u e1 e2 : String) (rest : List (String × String × FetchResult))
    (h : RefIntegrity db) :
    pollFeed ok db n u (FetchResult.transportFailure e1)
      = Except.ok (failedFetchState db n u) ∧
    pollFeed ok db n u (FetchResult.decodeFailure e2)
      = Except.ok (failedFetchState db n u) ∧
    (failedFetchState db n u).feed_logs = db.feed_logs ++
      [{ feed_log_id := db.next_log_id, feed_url := u, feed_name := n,
         feed_timestamp := none, success := false,
         error_message := some "Failed to fetch or parse protobuf" }] ∧
    (failedFetchState db n u).trip_updates = db.trip_updates ∧
    (failedFetchState db n u).stop_time_updates = db.stop_time_updates ∧
    (failedFetchState db n u).vehicle_positions = db.vehicle_positions ∧
    (failedFetchState db n u).service_alerts = db.service_alerts ∧
    (∀ r ∈ (failedFetchState db n u).trip_updates, r.feed_log_id ≠ db.next_log_id) ∧
    (∀ r ∈ (failedFetchState db n u).stop_time_updates, r.feed_log_id ≠ db.next_log_id) ∧
    (∀ r ∈ (failedFetchState db n u).vehicle_positions, r.feed_log_id ≠ db.next_log_id) ∧
    (∀ r ∈ (failedFetchState db n u).service_alerts, r.feed_log_id ≠ db.next_log_id) ∧
    pollCycle ok db ((n, u, FetchResult.transportFailure e1) :: rest)
      = pollCycle ok (failedFetchState db n u) rest := by
  obtain ⟨hlt, htu, hstu, hvp, hsa⟩ := h
  have hne : ∀ fk, ReferencesSomeLog db fk → fk ≠ db.next_log_id := by
    rintro fk ⟨l, hl, hid⟩ heq
    have hlt1 := hlt l hl
    rw [hid, heq] at hlt1
    exact Nat.lt_irrefl _ hlt1
  refine ⟨rfl, rfl, rfl, rfl, rfl, rfl, rfl, ?_, ?_, ?_, ?_, rfl⟩
  · exact fun r hr => hne _ (htu r hr)
  · exact fun r hr => hne _ (hstu r hr)
  · exact fun r hr => hne _ (hvp r hr)
  · exact fun r hr => hne _ (hsa r hr)

/-- Witness for C4: a concrete timed-out fetch against an empty database
commits exactly the one failed audit row with a null header timestamp. -/
theorem C4_failed_fetch_one_audit_row_witness :
    pollFeed okAll {} "MNR" "u" (FetchResult.transportFailure "Connection timed out")
      = Except.ok (failedFetchState {} "MNR" "u") ∧
    (failedFetchState {} "MNR" "u").feed_logs =
      [{ feed_log_id := 1, feed_url := "u", feed_name := "MNR",
         feed_timestamp := none, success := false,
         error_message := some "Failed to fetch or parse protobuf" }] := by
  have h := C4_failed_fetch_one_audit_row okAll {} "MNR" "u"
    "Connection timed out" "x" [] refIntegrity_empty
  exact ⟨h.1, h.2.2.1⟩

/-- Claim C7: in a poll of a successfully fetched and decoded feed, the
audit row is committed first — the committed audit table afterwards is
exactly the old table plus the new success row, whose id is the fresh
`next_log_id` — every entity row added by the poll carries that attempt's
id (whether or not a later batch raised), and referential integrity is
preserved: no entity row references a nonexistent attempt. -/
theorem C7_attempt_precedes_entity_rows (ok : Kind → Bool) (db : DB)
    (n u : String) (m : FeedMessage) (h : RefIntegrity db) :
    (outcomeDB (pollFeed ok db n u (FetchResult.success m))).feed_logs
        = db.feed_logs ++ [successLogRow db n u m] ∧
    (successLogRow db n u m).feed_log_id = db.next_log_id ∧
    (∀ r ∈ (outcomeDB (pollFeed ok db n u (FetchResult.success m))).trip_updates,
       r ∈ db.trip_updates ∨ r.feed_log_id = db.next_log_id) ∧
    (∀ r ∈ (outcomeDB (pollFeed ok db n u (FetchResult.success m))).stop_time_updates,
       r ∈ db.stop_time_updates ∨ r.feed_log_id = db.next_log_id) ∧
    (∀ r ∈ (outcomeDB (pollFeed ok db n u (FetchResult.success m))).vehicle_positions,
       r ∈ db.vehicle_positions ∨ r.feed_log_id = db.next_log_id) ∧
    (∀ r ∈ (outcomeDB (pollFeed ok db n u (FetchResult.success m))).service_alerts,
       r ∈ db.service_alerts ∨ r.feed_log_id = db.next_log_id) ∧
    RefIntegrity (outcomeDB (pollFeed ok db n u (FetchResult.success m))) := by
  obtain ⟨hgl, hgn, hgt, hgs, hgv, hga⟩ := pollFeed_success_goodStep ok db n u m
  have h1 : (outcomeDB (pollFeed ok db n u (FetchResult.success m))).feed_logs
      = db.feed_logs ++ [successLogRow db n u m] := hgl.trans rfl
  have hn : (outcomeDB (pollFeed ok db n u (FetchResult.success m))).next_log_id
      = db.next_log_id + 1 := hgn.trans rfl
  have ht' : ∀ r ∈ (outcomeDB (pollFeed ok db n u (FetchResult.success m))).trip_updates,
      r ∈ db.trip_updates ∨ r.feed_log_id = db.next_log_id := fun r hr => hgt r hr
  have hs' : ∀ r ∈ (outcomeDB (pollFeed ok db n u (FetchResult.success m))).stop_time_updates,
      r ∈ db.stop_time_updates ∨ r.feed_log_id = db.next_log_id := fun r hr => hgs r hr
  have hv' : ∀ r ∈ (outcomeDB (pollFeed ok db n u (FetchResult.success m))).vehicle_positions,
      r ∈ db.vehicle_positions ∨ r.feed_log_id = db.next_log_id := fun r hr => hgv r hr
  have ha' : ∀ r ∈ (outcomeDB (pollFeed ok db n u (FetchResult.success m))).service_alerts,
      r ∈ db.service_alerts ∨ r.feed_log_id = db.next_log_id := fun r hr => hga r hr
  have hrefNew : ReferencesSomeLog (outcomeDB (pollFeed ok db n u (FetchResult.success m)))
      db.next_log_id := by
    refine ⟨successLogRow db n u m, ?_, rfl⟩
    rw [h1]
    exact List.mem_append.2 (Or.inr (List.mem_singleton.2 rfl))
  have hrefOld : ∀ fk, ReferencesSomeLog db fk →
      ReferencesSomeLog (outcomeDB (pollFeed ok db n u (FetchResult.success m))) fk := by
    rintro fk ⟨l, hl, hid⟩
    refine ⟨l, ?_, hid⟩
    rw [h1]
    exact List.mem_append.2 (Or.inl hl)
  refine ⟨h1, rfl, ht', hs', hv', ha', ?_, ?_, ?_, ?_, ?_⟩
  · intro l hl
    rw [h1] at hl
    rw [hn]
    rcases List.mem_append.1 hl with hl | hl
    · exact Nat.lt_trans (h.1 l hl) (Nat.lt_succ_self _)
    · rw [List.mem_singleton.1 hl]
      exact Nat.lt_succ_self _
  · intro r hr
    rcases ht' r hr with hold | hid
    · exact hrefOld _ (h.2.1 r hold)
    · rw [hid]; exact hrefNew
  · intro r hr
    rcases hs' r hr with hold | hid
    · exact hrefOld _ (h.2.2.1 r hold)
    · rw [hid]; exact hrefNew
  · intro r hr
    rcases hv' r hr with hold | hid
    · exact hrefOld _ (h.2.2.2.1 r hold)
    · rw [hid]; exact hrefNew
  · intro r hr
    rcases ha' r hr with hold | hid
    · exact hrefOld _ (h.2.2.2.2 r hold)
    · rw [hid]; exact hrefNew

/-- Witness for C7: a concrete successful poll against an empty database
yields exactly one audit row (the success row) and a state satisfying
referential integrity. -/
theorem C7_attempt_precedes_entity_rows_witness :
    (outcomeDB (pollFeed okAll {} "Subway-ACE" "u" (FetchResult.success tvMessage))).feed_logs
      = [successLogRow {} "Subway-ACE" "u" tvMessage] ∧
    RefIntegrity (outcomeDB (pollFeed okAll {} "Subway-ACE" "u" (FetchResult.success tvMessage))) := by
  have h := C7_attempt_precedes_entity_rows okAll {} "Subway-ACE" "u" tvMessage refIntegrity_empty
  exact ⟨h.1, h.2.2.2.2.2.2⟩
